import Mathlib

/-!
Verification development for the multi-chain wallet / transaction relay
(`balance_checker.py`, `transaction_manager.py`, `wallet_manager.py`,
`sync_db_manager.py`).  The Python operations are shallowly embedded:
result dictionaries become a `PyResult` record, the RPC / database world
becomes explicit environment records, Python floats become exact dyadic
rationals with IEEE-754 round-to-nearest-even multiplication, and each
operation body is translated branch-by-branch from the source.
-/

/-- Envelope shape of the Python result dictionaries: a `success` flag, an
optional `error` message (the `"error"` key) and an optional
operation-specific payload (the remaining keys of a success dictionary). -/
structure PyResult (α : Type) where
  success : Bool
  error : Option String := none
  payload : Option α := none
deriving Repr, DecidableEq

/-- `{"success": False, "error": msg}` -/
def PyResult.fail {α : Type} (msg : String) : PyResult α :=
  { success := false, error := some msg }

/-- `{"success": True, ...payload...}` -/
def PyResult.okay {α : Type} (p : α) : PyResult α :=
  { success := true, payload := some p }

/-! ## Python floats as exact dyadic rationals

A nonnegative CPython float is `m * 2 ^ e` for a 53-bit significand `m`.
`roundSig` implements IEEE-754 round-to-nearest, ties-to-even, onto a 53-bit
significand, which is exactly what the hardware product of two doubles does
to the exact mathematical product. -/

/-- A nonnegative double: value `m * 2 ^ e` (subnormal/overflow range not
needed for the amounts in the claims). -/
structure PyFloat where
  m : ℕ
  e : ℤ
deriving Repr, DecidableEq

namespace PyFloat

/-- Exact rational value of the float. -/
def val (f : PyFloat) : ℚ := (f.m : ℚ) * (2 : ℚ) ^ f.e

/-- Drop the low `s` bits of `p` rounding to nearest, ties to even. -/
def rnd (p s : ℕ) : ℕ :=
  if p % 2 ^ s < 2 ^ (s - 1) then p / 2 ^ s
  else if 2 ^ (s - 1) < p % 2 ^ s then p / 2 ^ s + 1
  else if (p / 2 ^ s) % 2 = 0 then p / 2 ^ s else p / 2 ^ s + 1

/-- Round a natural significand to 53 bits, nearest, ties to even: for
`p ≥ 2 ^ 53` exactly `p.log2 + 1 - 53 = p.log2 - 52` low bits are dropped.
Returns the rounded significand and the number of bits dropped. -/
def roundSig (p : ℕ) : ℕ × ℕ :=
  if p < 2 ^ 53 then (p, 0) else (rnd p (p.log2 - 52), p.log2 - 52)

/-- IEEE-754 double multiplication: round the exact product to 53 bits. -/
def fpMul (a b : PyFloat) : PyFloat :=
  let p := roundSig (a.m * b.m)
  ⟨p.1, a.e + b.e + (p.2 : ℤ)⟩

/-- Conversion of a Python `int` to a double (rounding when ≥ 2^53). -/
def ofNat (n : ℕ) : PyFloat :=
  let p := roundSig n
  ⟨p.1, (p.2 : ℤ)⟩

/-- Python `int(f)` for a nonnegative float: truncation toward zero. -/
def pyTrunc (f : PyFloat) : ℕ :=
  if 0 ≤ f.e then f.m * 2 ^ f.e.toNat else f.m / 2 ^ (-f.e).toNat

end PyFloat

/-- `transaction_manager.py` line 198 (`send_token`):
`amount_raw = int(amount * (10 ** decimals))` — the Python product of the
caller's float with the (float-converted) power of ten, truncated by `int`. -/
def amountRaw (amount : PyFloat) (decimals : ℕ) : ℕ :=
  PyFloat.pyTrunc (PyFloat.fpMul amount (PyFloat.ofNat (10 ^ decimals)))

/-- `transaction_manager.py` line 122 (`send_sol`):
`amount_lamports = int(amount * 10**9)`. -/
def amountLamports (amount : PyFloat) : ℕ :=
  amountRaw amount 9

/-- The spec's conversion (spec §4.3 numeric semantics, §8): exact scaling of
the caller's amount by `10 ^ d` followed by rounding (half rounds up). -/
def specScaled (amount : PyFloat) (d : ℕ) : ℤ :=
  ⌊amount.val * (10 : ℚ) ^ d + 1 / 2⌋

/-- The double nearest to 8.2 — significand and exponent of the IEEE-754
value `8.199999999999999289457264239899814128875732421875`. -/
def py82 : PyFloat := ⟨4616189618054758, -49⟩

/-! ## Chain registry

`transaction_manager.py` lines 13-18, `balance_checker.py` lines 10-15 and
`wallet_manager.py` lines 17-22 all key their `web3_connections` dictionary
by exactly these four names; `wallet_manager.py` lines 209 and 228 repeat
the same four names as a literal list. -/

def evmChains : List String := ["ethereum", "base", "bsc", "polygon"]

/-- `chain in self.web3_connections` — exact (case-sensitive) key lookup. -/
def chainSupported (chain : String) : Bool := evmChains.contains chain

/-- `f"Unsupported chain: {chain}"` -/
def unsupportedChainMsg (chain : String) : String := "Unsupported chain: " ++ chain

/-! ## RPC world of `TransactionManager` -/

/-- An EVM transaction receipt as the source reads it. -/
structure EvmReceipt where
  status : ℕ
  blockNumber : ℕ
  gasUsed : ℕ
  effectiveGasPrice : ℕ
deriving Repr, DecidableEq

/-- The `meta` object of a Solana transaction response. -/
structure SolMeta where
  err : Option String
  fee : ℕ
deriving Repr, DecidableEq

/-- A Solana `get_transaction` result. -/
structure SolTx where
  slot : ℕ
  meta : Option SolMeta
deriving Repr, DecidableEq

/-- `tx_data.get('meta', {}).get('err')` -/
def metaErr (tx : SolTx) : Option String :=
  match tx.meta with
  | none => none
  | some m => m.err

/-- `tx_data.get('meta', {}).get('fee', 0)` -/
def metaFee (tx : SolTx) : ℕ :=
  match tx.meta with
  | none => 0
  | some m => m.fee

/-- The remote world a `TransactionManager` call runs against: one oracle
per remote call the source makes.  An `Except.error` models the Python
exception such a call may raise (caught by the surrounding `try`, whose
handler returns `{"success": False, "error": str(e)}`). -/
structure TxEnv where
  fromKey : String → Except String String
  isAddress : String → Bool
  gasPrice : ℕ
  txCount : ℕ
  estimateGas : Except String ℕ
  sendRaw : Except String String
  waitReceipt : Except String EvmReceipt
  decimals : Except String ℕ
  symbol : Except String String
  getReceipt : String → String → Option EvmReceipt
  blockNumber : String → ℕ
  solanaGetTx : String → Option SolTx

/-- Success payload of `send_native_token`. -/
structure SendPayload where
  txHash : String
  fromAddress : String
  toAddress : String
  amount : ℚ
  gasUsed : ℕ
  gasPrice : ℕ
  totalCost : ℕ
  status : String
  blockNumber : ℕ
deriving Repr, DecidableEq

/-- Success payload of `send_token`. -/
structure TokenSendPayload where
  txHash : String
  fromAddress : String
  toAddress : String
  tokenAddress : String
  tokenSymbol : String
  amount : PyFloat
  amountRawUnits : ℕ
  gasUsed : ℕ
  status : String
  blockNumber : ℕ
deriving Repr, DecidableEq

/-- Success payload of `estimate_gas`. -/
structure GasPayload where
  estimatedGas : ℕ
  gasPrice : ℕ
  totalCostWei : ℕ
  totalCostEth : ℚ
  transactionType : String
deriving Repr, DecidableEq

/-- Success payload of `get_transaction_status` (optional keys appear only
on the branch that sets them). -/
structure StatusPayload where
  txHash : String
  status : String
  blockNumber : ℕ
  confirmations : ℤ
  gasUsed : Option ℕ
  effectiveGasPrice : Option ℕ
  fee : Option ℕ
deriving Repr, DecidableEq

/-- `TransactionManager.send_native_token` (`transaction_manager.py` lines
54-116), branch by branch.  `amount` is carried as its exact value;
`web3.to_wei(amount, 'ether')` scales the float's shortest decimal
representation exactly (`eth_utils` converts through `Decimal(str(x))`),
so no float product is involved on this path. -/
def send_native_token (env : TxEnv) (fromPrivateKey toAddress : String)
    (amount : ℚ) (chain : String) : PyResult SendPayload :=
  if ¬ chainSupported chain then .fail (unsupportedChainMsg chain)
  else match env.fromKey fromPrivateKey with
    | .error e => .fail e
    | .ok fromAddress =>
      if ¬ env.isAddress toAddress then .fail "Invalid recipient address"
      else match env.estimateGas with
        | .error e => .fail e
        | .ok _gasEstimate => match env.sendRaw with
          | .error e => .fail e
          | .ok txHash => match env.waitReceipt with
            | .error e => .fail e
            | .ok receipt => .okay {
                txHash := txHash
                fromAddress := fromAddress
                toAddress := toAddress
                amount := amount
                gasUsed := receipt.gasUsed
                gasPrice := env.gasPrice
                totalCost := receipt.gasUsed * env.gasPrice
                status := if receipt.status = 1 then "confirmed" else "failed"
                blockNumber := receipt.blockNumber }

/-- `TransactionManager.send_token` (`transaction_manager.py` lines
154-236): the guard, the two read-only contract calls, key derivation,
submission, receipt; `amount_raw = int(amount * (10 ** decimals))` is the
float conversion `amountRaw`. -/
def send_token (env : TxEnv) (fromPrivateKey toAddress tokenAddress : String)
    (amount : PyFloat) (chain : String) : PyResult TokenSendPayload :=
  if ¬ chainSupported chain then .fail (unsupportedChainMsg chain)
  else match env.decimals with
    | .error e => .fail e
    | .ok decimals => match env.symbol with
      | .error e => .fail e
      | .ok tokenSymbol => match env.fromKey fromPrivateKey with
        | .error e => .fail e
        | .ok fromAddress => match env.sendRaw with
          | .error e => .fail e
          | .ok txHash => match env.waitReceipt with
            | .error e => .fail e
            | .ok receipt => .okay {
                txHash := txHash
                fromAddress := fromAddress
                toAddress := toAddress
                tokenAddress := tokenAddress
                tokenSymbol := tokenSymbol
                amount := amount
                amountRawUnits := amountRaw amount decimals
                gasUsed := receipt.gasUsed
                status := if receipt.status = 1 then "confirmed" else "failed"
                blockNumber := receipt.blockNumber }

/-- `TransactionManager.estimate_gas` (`transaction_manager.py` lines
238-297): guard, token-path contract call, then the shared
estimate × price computation; `from_wei(…, 'ether')` is exact division
by `10 ^ 18`. -/
def estimate_gas (env : TxEnv) (fromAddress toAddress : String)
    (amount : PyFloat) (chain : String) (tokenAddress : Option String) :
    PyResult GasPayload :=
  if ¬ chainSupported chain then .fail (unsupportedChainMsg chain)
  else
    let run : PyResult GasPayload :=
      match env.estimateGas with
      | .error e => .fail e
      | .ok g => .okay {
          estimatedGas := g
          gasPrice := env.gasPrice
          totalCostWei := g * env.gasPrice
          totalCostEth := ((g * env.gasPrice : ℕ) : ℚ) / 10 ^ 18
          transactionType := if tokenAddress.isSome then "token" else "native" }
    match tokenAddress with
    | some _ =>
      match env.decimals with
      | .error e => .fail e
      | .ok _ => run
    | none => run

/-- `TransactionManager.get_transaction_status` (`transaction_manager.py`
lines 299-342): the solana branch (fixed `confirmations = 1`, confirmed
iff no `meta.err`), the EVM branch (`confirmations = current block −
inclusion block`, status from the receipt flag), the not-found and
unsupported-chain failures. -/
def get_transaction_status (env : TxEnv) (txHash chain : String) :
    PyResult StatusPayload :=
  if chain = "solana" then
    match env.solanaGetTx txHash with
    | some txData => .okay {
        txHash := txHash
        status := if metaErr txData = none then "confirmed" else "failed"
        blockNumber := txData.slot
        confirmations := 1
        gasUsed := none
        effectiveGasPrice := none
        fee := some (metaFee txData) }
    | none => .fail "Transaction not found"
  else if chainSupported chain then
    match env.getReceipt chain txHash with
    | some receipt => .okay {
        txHash := txHash
        status := if receipt.status = 1 then "confirmed" else "failed"
        blockNumber := receipt.blockNumber
        confirmations := (env.blockNumber chain : ℤ) - (receipt.blockNumber : ℤ)
        gasUsed := some receipt.gasUsed
        effectiveGasPrice := some receipt.effectiveGasPrice
        fee := none }
    | none => .fail "Transaction not found"
  else .fail (unsupportedChainMsg chain)

/-! ## `BalanceChecker` -/

/-- Success payload of `get_eth_balance`. -/
structure BalancePayload where
  balanceEth : ℚ
  balanceWei : ℕ
  symbol : String
  chain : String
  address : String
deriving Repr, DecidableEq

/-- `balance_checker.py` lines 45-50: the symbols dictionary with default
`'ETH'`. -/
def bcSymbol (chain : String) : String :=
  if chain = "ethereum" then "ETH"
  else if chain = "base" then "ETH"
  else if chain = "bsc" then "BNB"
  else if chain = "polygon" then "MATIC"
  else "ETH"

/-- The remote world of `BalanceChecker.get_eth_balance`. -/
structure BalEnv where
  isAddress : String → Bool
  getBalance : String → String → ℕ
deriving Inhabited

/-- `BalanceChecker.get_eth_balance` (`balance_checker.py` lines 28-62). -/
def get_eth_balance (env : BalEnv) (address chain : String) :
    PyResult BalancePayload :=
  if ¬ chainSupported chain then .fail (unsupportedChainMsg chain)
  else if ¬ env.isAddress address then .fail "Invalid address"
  else
    let wei := env.getBalance chain address
    .okay { balanceEth := (wei : ℚ) / 10 ^ 18
            balanceWei := wei
            symbol := bcSymbol chain
            chain := chain
            address := address }

/-! ## `WalletManager` and `SyncDatabaseManager`: key vault -/

/-- Modelled from the spec (§4.2 KeyVault): `cryptography.fernet.Fernet`
is a third-party library, absent from `src/`.  Per its
authenticated-encryption contract, a token decrypts only under the key
that produced it and otherwise raises `InvalidToken`; the model records
the producing key and the plaintext inside the token.  `.encode()` /
`.decode()` (UTF-8) round-trip and are modelled as the identity. -/
structure FernetToken where
  keyId : ℕ
  body : String
deriving Repr, DecidableEq

/-- Modelled from the spec: `Fernet(key).encrypt`. -/
def fernetEncrypt (keyId : ℕ) (plaintext : String) : FernetToken :=
  ⟨keyId, plaintext⟩

/-- Modelled from the spec: `Fernet(key).decrypt`, raising `InvalidToken`
on a ciphertext made under a different key. -/
def fernetDecrypt (keyId : ℕ) (token : FernetToken) : Except String String :=
  if token.keyId = keyId then .ok token.body else .error "InvalidToken"

/-- `wallet_manager.py` lines 73-75:
`self.cipher.encrypt(private_key.encode()).decode()`.  `selfKey` is the
process-wide key this manager loaded at startup. -/
def encrypt_private_key (selfKey : ℕ) (privateKey : String) : FernetToken :=
  fernetEncrypt selfKey privateKey

/-- `sync_db_manager.py` lines 40-42:
`self.cipher.decrypt(encrypted_key.encode()).decode()` — no handler, so a
mismatched key raises out of this method. -/
def decrypt_private_key (selfKey : ℕ) (encryptedKey : FernetToken) :
    Except String String :=
  fernetDecrypt selfKey encryptedKey

/-! ## Private-key validation

`_validate_private_key` checks `len == 64` (after stripping a literal
`'0x'`) and that `int(private_key, 16)` does not raise.  The grammar
accepted by CPython's `int(s, 16)` is: optional surrounding whitespace, an
optional sign, an optional `0x`/`0X` base prefix, then hex digits with
single underscores allowed between digits (and one directly after the
base prefix).  The model covers the ASCII fragment (Python additionally
accepts some non-ASCII space and digit characters). -/

/-- ASCII whitespace stripped by `int(...)`. -/
def isPySpace (c : Char) : Bool :=
  c = ' ' || c = '\t' || c = '\n' || c = '\r' || c = '\x0b' || c = '\x0c'

/-- A hexadecimal digit. -/
def isHexDigitCh (c : Char) : Bool :=
  ('0' ≤ c && c ≤ '9') || ('a' ≤ c && c ≤ 'f') || ('A' ≤ c && c ≤ 'F')

/-- Rest of a digit run: single underscores only between digits. -/
def hexTail : List Char → Bool
  | [] => true
  | '_' :: c :: rest => isHexDigitCh c && hexTail rest
  | ['_'] => false
  | c :: rest => isHexDigitCh c && hexTail rest

/-- A nonempty digit run. -/
def hexRun : List Char → Bool
  | [] => false
  | c :: rest => isHexDigitCh c && hexTail rest

/-- After `0x`/`0X` one leading underscore is allowed. -/
def hexAfterBase : List Char → Bool
  | '_' :: rest => hexRun rest
  | cs => hexRun cs

/-- Digits with an optional base marker. -/
def hexBody : List Char → Bool
  | '0' :: 'x' :: rest => hexAfterBase rest
  | '0' :: 'X' :: rest => hexAfterBase rest
  | cs => hexRun cs

/-- Optional sign. -/
def signedHexBody : List Char → Bool
  | '+' :: rest => hexBody rest
  | '-' :: rest => hexBody rest
  | cs => hexBody cs

/-- `int(s, 16)` succeeds (ASCII fragment). -/
def pyIntHexOk (s : String) : Bool :=
  signedHexBody (((s.toList.dropWhile isPySpace).reverse.dropWhile isPySpace).reverse)

/-- `private_key.startswith('0x')` — the first two characters are `0x`. -/
def pyStarts0x (s : String) : Bool :=
  match s.toList with
  | '0' :: 'x' :: _ => true
  | _ => false

/-- `private_key[2:]`. -/
def pyDrop2 (s : String) : String :=
  String.mk (s.toList.drop 2)

/-- `wallet_manager.py` lines 206-223 (`_validate_private_key`): only the
four EVM chains validate; strip a literal `'0x'`, require length 64, then
require `int(pk, 16)` not to raise. -/
def validate_private_key (privateKey chain : String) : Bool :=
  if chainSupported chain then
    let pk := if pyStarts0x privateKey then pyDrop2 privateKey else privateKey
    if pk.toList.length ≠ 64 then false
    else pyIntHexOk pk
  else false

/-! ## Address derivation -/

/-- Strip an optional `0x` marker. -/
def strip0x (s : String) : String :=
  if pyStarts0x s then pyDrop2 s else s

/-- Exactly 64 hex digits. -/
def isStrict64Hex (s : String) : Bool :=
  s.toList.length = 64 && s.toList.all isHexDigitCh

/-- Lower-case hex digit for `n % 16`, by character-code arithmetic. -/
def hexDigitChar (n : ℕ) : Char :=
  if n % 16 < 10 then Char.ofNat ('0'.toNat + n % 16)
  else Char.ofNat ('a'.toNat + (n % 16 - 10))

/-- Fixed-width big-endian hex rendering. -/
def hexRender : ℕ → ℕ → List Char
  | 0, _ => []
  | w + 1, v => hexRender w (v / 16) ++ [hexDigitChar v]

/-- Numeric value of a hex digit. -/
def hexValCh (c : Char) : ℕ :=
  if '0' ≤ c && c ≤ '9' then c.toNat - '0'.toNat
  else if 'a' ≤ c && c ≤ 'f' then c.toNat - 'a'.toNat + 10
  else if 'A' ≤ c && c ≤ 'F' then c.toNat - 'A'.toNat + 10
  else 0

/-- Big-endian hex string to number. -/
def hexToNat (s : String) : ℕ :=
  s.toList.foldl (fun acc c => 16 * acc + hexValCh c) 0

/-- Modelled from the spec (§4.2 `derive_address`): `eth_account`'s
`from_key(...).address` (third-party, absent from `src/`) — the standard
deterministic public-key-to-address derivation.  It accepts exactly the
well-formed 32-byte hex scalars (with or without `0x`) and raises on
anything else; the 40-hex-digit address is modelled as a fixed
deterministic function of the key scalar (standing in for keccak of the
derived public key; the secp256k1 range restriction is not modelled). -/
def from_key_address (privateKey : String) : Option String :=
  if isStrict64Hex (strip0x privateKey) then
    some ("0x" ++ String.mk (hexRender 40 (hexToNat (strip0x privateKey))))
  else none

/-- `wallet_manager.py` lines 225-235 (`_get_wallet_address`): chain gate
(the literal list and the `web3_connections` keys are the same four
names), then derivation; any exception yields `None`. -/
def get_wallet_address (privateKey chain : String) : Option String :=
  if chainSupported chain then from_key_address privateKey else none

/-! ## Wallet store -/

/-- A row of the `wallets` table. -/
structure WalletRow where
  userId : String
  walletName : String
  encryptedPrivateKey : FernetToken
  walletAddress : String
  chain : String
deriving Repr, DecidableEq

/-- Success payload of `add_wallet`. -/
structure AddWalletPayload where
  walletAddress : String
  chain : String
  message : String
deriving Repr, DecidableEq

/-- `wallet_manager.py` lines 81-116 (`add_wallet`): validate, derive,
encrypt, insert.  Returns the envelope and the table after the call. -/
def add_wallet (db : List WalletRow) (selfKey : ℕ)
    (userId walletName privateKey chain : String) :
    PyResult AddWalletPayload × List WalletRow :=
  if ¬ validate_private_key privateKey chain then
    (.fail "Invalid private key", db)
  else match get_wallet_address privateKey chain with
    | none => (.fail "Could not derive wallet address", db)
    | some walletAddress =>
      (.okay { walletAddress := walletAddress
               chain := chain
               message := "Wallet '" ++ walletName ++ "' added successfully" },
       db ++ [{ userId := userId
                walletName := walletName
                encryptedPrivateKey := encrypt_private_key selfKey privateKey
                walletAddress := walletAddress
                chain := chain }])

/-- `SELECT wallet_address FROM wallets WHERE …` + `fetchone()`. -/
def lookupWallet (db : List WalletRow) (userId walletName chain : String) :
    Option WalletRow :=
  db.find? (fun r =>
    r.userId = userId && r.walletName = walletName && r.chain = chain)

/-- Success payload of `get_wallet_balance`. -/
structure WalletBalancePayload where
  walletAddress : String
  chain : String
  balanceWei : ℕ
  balanceEth : ℚ
  symbol : String
deriving Repr, DecidableEq

/-- `wallet_manager.py` line 175: `"ETH" if chain == "ethereum" else "BNB"
if chain == "bsc" else "MATIC"` (note: this yields `MATIC` for `base`). -/
def wmSymbol (chain : String) : String :=
  if chain = "ethereum" then "ETH" else if chain = "bsc" then "BNB" else "MATIC"

/-- Remote world of `get_wallet_balance`. -/
structure WmBalEnv where
  getBalance : String → String → Except String ℕ

/-- `wallet_manager.py` lines 142-181 (`get_wallet_balance`): row lookup
first, then the chain gate, then the balance query; any exception is
wrapped as `"Failed to get balance: …"`. -/
def get_wallet_balance (db : List WalletRow) (env : WmBalEnv)
    (userId walletName chain : String) : PyResult WalletBalancePayload :=
  match lookupWallet db userId walletName chain with
  | none => .fail "Wallet not found"
  | some row =>
    if chainSupported chain then
      match env.getBalance chain row.walletAddress with
      | .error e => .fail ("Failed to get balance: " ++ e)
      | .ok wei => .okay { walletAddress := row.walletAddress
                           chain := chain
                           balanceWei := wei
                           balanceEth := (wei : ℚ) / 10 ^ 18
                           symbol := wmSymbol chain }
    else .fail ("Chain " ++ chain ++ " not supported")

/-! ## User settings -/

/-- A row of the `user_settings` table (primary key `user_id`). -/
structure SettingsRow where
  userId : String
  defaultChain : String
  maxSlippage : ℚ
deriving Repr, DecidableEq

/-- Python truthiness of the optional `default_chain` argument. -/
def truthyStr : Option String → Bool
  | none => false
  | some s => !s.toList.isEmpty

/-- Python truthiness of the optional `max_slippage` argument (`0.0` is
falsy). -/
def truthyNum : Option ℚ → Bool
  | none => false
  | some q => q != 0

/-- `INSERT OR REPLACE` keyed on the `user_id` primary key. -/
def upsertSettings (db : List SettingsRow) (row : SettingsRow) :
    List SettingsRow :=
  db.filter (fun r => r.userId != row.userId) ++ [row]

/-- `wallet_manager.py` lines 262-290 (`update_user_settings`): three
guarded writes (a replaced row takes the column defaults `5.0` /
`'ethereum'` for the omitted column); with both arguments falsy no
statement executes, yet the success envelope is still returned. -/
def update_user_settings (db : List SettingsRow) (userId : String)
    (defaultChain : Option String) (maxSlippage : Option ℚ) :
    PyResult String × List SettingsRow :=
  let db' :=
    if truthyStr defaultChain && truthyNum maxSlippage then
      upsertSettings db { userId := userId
                          defaultChain := defaultChain.getD ""
                          maxSlippage := maxSlippage.getD 0 }
    else if truthyStr defaultChain then
      upsertSettings db { userId := userId
                          defaultChain := defaultChain.getD ""
                          maxSlippage := 5 }
    else if truthyNum maxSlippage then
      upsertSettings db { userId := userId
                          defaultChain := "ethereum"
                          maxSlippage := maxSlippage.getD 0 }
    else db
  (.okay "Settings updated successfully", db')

/-! ## Envelope discipline and concrete test fixtures -/

/-- The success/error/payload agreement part of the spec's
result-envelope discipline (§4.5, §7): a success carries a payload and no
error, a failure carries an error message and no payload.  The spec's
failure envelope additionally demands a machine-checkable error kind; the
source dictionaries hold no such component — a failure is exactly
`{"success": False, "error": str}` — so no predicate over the returned
envelope can express it (see the C9 counterexample). -/
def envelopeOk {α : Type} (r : PyResult α) : Prop :=
  (r.success = true ↔ r.error = none) ∧
  (r.success = true ↔ r.payload.isSome = true)

/-- A concrete RPC world: every lookup succeeds, a receipt exists for any
hash, the native-transfer gas estimate is the standard 21000. -/
def env0 : TxEnv :=
  { fromKey := fun _ => .ok "0xsender"
    isAddress := fun _ => true
    gasPrice := 7
    txCount := 3
    estimateGas := .ok 21000
    sendRaw := .ok "0xhash"
    waitReceipt := .ok ⟨1, 100, 21000, 7⟩
    decimals := .ok 18
    symbol := .ok "TOK"
    getReceipt := fun _ _ => some ⟨1, 100, 21000, 7⟩
    blockNumber := fun _ => 130
    solanaGetTx := fun _ => some ⟨42, some ⟨none, 5000⟩⟩ }

/-- A concrete RPC world in which nothing is found. -/
def envEmpty : TxEnv :=
  { env0 with
    getReceipt := fun _ _ => none
    solanaGetTx := fun _ => none }

/-- A concrete balance world. -/
def balEnv0 : BalEnv :=
  { isAddress := fun _ => true
    getBalance := fun _ _ => 5 }

/-- A concrete wallet-balance world. -/
def wmEnv0 : WmBalEnv :=
  { getBalance := fun _ _ => .ok 5 }

/-- A world whose key-derivation call raises an exception whose text
happens to coincide with the invalid-recipient message. -/
def envKeyErr : TxEnv :=
  { env0 with fromKey := fun _ => .error "Invalid recipient address" }

/-- A world where key derivation succeeds but every recipient address
fails validation. -/
def envBadAddr : TxEnv :=
  { env0 with isAddress := fun _ => false }

/-- 64 characters: a sign followed by 63 hex digits.  Python's
`int(key, 16)` accepts it, so `_validate_private_key` does too, although
it contains a non-hex character. -/
def badKey64 : String :=
  "+fffffffffffffffffffffffffffffffffffffffffffffffffffffffffffffff"

/-- 64 hex digits: a strictly well-formed key scalar. -/
def goodKey64 : String :=
  "aaaaaaaaaaaaaaaaaaaaaaaaaaaaaaaaaaaaaaaaaaaaaaaaaaaaaaaaaaaaaaaa"

namespace PyFloat

theorem val_nonneg (f : PyFloat) : 0 ≤ f.val := by
  unfold val; positivity

theorem log2_eq_of {n k : ℕ} (h1 : 2 ^ k ≤ n) (h2 : n < 2 ^ (k + 1)) :
    n.log2 = k := by
  have hn : n ≠ 0 := by
    have : 0 < 2 ^ k := Nat.pos_pow_of_pos k (by norm_num)
    omega
  exact Nat.le_antisymm (Nat.lt_succ_iff.1 ((Nat.log2_lt hn).2 h2))
    ((Nat.le_log2 hn).2 h1)

theorem roundSig_small {p : ℕ} (h : p < 2 ^ 53) : roundSig p = (p, 0) := by
  rw [roundSig, if_pos h]

theorem roundSig_big {p : ℕ} (h : 2 ^ 53 ≤ p) :
    roundSig p = (rnd p (p.log2 - 52), p.log2 - 52) := by
  rw [roundSig, if_neg (Nat.not_lt.2 h)]

/-- Dropping `s ≥ 1` bits, the rounded value `rnd p s * 2 ^ s` is within
half a grid step of the input. -/
theorem rnd_bound {p s : ℕ} (hs : 1 ≤ s) :
    ((rnd p s * 2 ^ s : ℕ) : ℤ) - p ≤ 2 ^ (s - 1) ∧
    (p : ℤ) - (rnd p s * 2 ^ s : ℕ) ≤ 2 ^ (s - 1) := by
  obtain ⟨k, rfl⟩ : ∃ k, s = k + 1 := ⟨s - 1, by omega⟩
  have h2 : (0 : ℕ) < 2 ^ (k + 1) := Nat.pos_pow_of_pos _ (by norm_num)
  simp only [rnd, Nat.add_sub_cancel]
  set D := p / 2 ^ (k + 1) with hD
  set R := p % 2 ^ (k + 1) with hR
  have hdmZ : (2 : ℤ) ^ (k + 1) * (D : ℤ) + (R : ℤ) = (p : ℤ) := by
    exact_mod_cast Nat.div_add_mod p (2 ^ (k + 1))
  have hmltZ : (R : ℤ) < 2 ^ (k + 1) := by exact_mod_cast Nat.mod_lt _ h2
  have hge : (0 : ℤ) ≤ (R : ℤ) := Int.natCast_nonneg _
  have hpow : (2 : ℤ) ^ (k + 1) = 2 * 2 ^ k := by rw [pow_succ]; ring
  split_ifs with h1 hgt heven
  · have h1' : (R : ℤ) < 2 ^ k := by exact_mod_cast h1
    constructor <;> (push_cast; linarith)
  · have h2' : (2 : ℤ) ^ k < (R : ℤ) := by exact_mod_cast hgt
    constructor <;> (push_cast; linarith)
  · have heq : (R : ℤ) = 2 ^ k := by
      have := Nat.le_antisymm (Nat.not_lt.1 hgt) (Nat.not_lt.1 h1)
      exact_mod_cast this
    constructor <;> (push_cast; linarith)
  · have heq : (R : ℤ) = 2 ^ k := by
      have := Nat.le_antisymm (Nat.not_lt.1 hgt) (Nat.not_lt.1 h1)
      exact_mod_cast this
    constructor <;> (push_cast; linarith)

/-- Scale of the dropped bits: when rounding kicks in, the input is at
least `2 ^ 53` times half the grid step. -/
theorem log2_scale {p : ℕ} (h : 2 ^ 53 ≤ p) :
    53 ≤ p.log2 ∧ 2 ^ (p.log2 - 52 + 52) ≤ p := by
  have hne : p ≠ 0 := by
    have : (0 : ℕ) < 2 ^ 53 := Nat.pos_pow_of_pos _ (by norm_num)
    omega
  have h53 : 53 ≤ p.log2 := (Nat.le_log2 hne).2 h
  refine ⟨h53, ?_⟩
  have : 2 ^ p.log2 ≤ p := (Nat.le_log2 hne).1 le_rfl
  rwa [show p.log2 - 52 + 52 = p.log2 from by omega]

/-- The exact product of two floats, as a rational. -/
theorem val_mul (a b : PyFloat) :
    a.val * b.val = ((a.m * b.m : ℕ) : ℚ) * (2 : ℚ) ^ (a.e + b.e) := by
  unfold val
  rw [zpow_add₀ (two_ne_zero)]
  push_cast
  ring

theorem fpMul_val (a b : PyFloat) :
    (fpMul a b).val = ((roundSig (a.m * b.m)).1 : ℚ) *
      (2 : ℚ) ^ (((roundSig (a.m * b.m)).2 : ℤ) + (a.e + b.e)) := by
  unfold fpMul val
  ring_nf

/-- Python `int()` truncation agrees with the rational floor (the modelled
floats are nonnegative). -/
theorem pyTrunc_eq_floor (f : PyFloat) : (pyTrunc f : ℤ) = ⌊f.val⌋ := by
  unfold pyTrunc val
  by_cases h : 0 ≤ f.e
  · rw [if_pos h]
    have he : f.e = (f.e.toNat : ℤ) := (Int.toNat_of_nonneg h).symm
    conv_rhs => rw [he, zpow_natCast]
    rw [show ((f.m : ℚ) * (2 : ℚ) ^ f.e.toNat) = (((f.m * 2 ^ f.e.toNat : ℕ) : ℤ) : ℚ) from by push_cast; ring]
    rw [Int.floor_intCast]
  · rw [if_neg h]
    have he : f.e = -(((-f.e).toNat : ℕ) : ℤ) := by omega
    conv_rhs => rw [he, zpow_neg, zpow_natCast]
    rw [show ((f.m : ℚ) * ((2 : ℚ) ^ (-f.e).toNat)⁻¹) = ((f.m : ℤ) : ℚ) / ((2 ^ (-f.e).toNat : ℕ) : ℚ) from by push_cast; ring]
    rw [Rat.floor_intCast_div_natCast]
    exact_mod_cast (Int.ofNat_ediv f.m (2 ^ (-f.e).toNat)).symm

/-- Key bound: truncating the rounded double product `fpMul a b` yields an
integer between `⌊a.val * b.val⌋` and `a.val * b.val + 1/2`, provided the
exact product is at most `2 ^ 52` (so that the float grid around it is at
least as fine as the integers). -/
theorem trunc_fpMul_bounds (a b : PyFloat) (hx : a.val * b.val ≤ 2 ^ 52) :
    ⌊a.val * b.val⌋ ≤ (pyTrunc (fpMul a b) : ℤ) ∧
    ((pyTrunc (fpMul a b) : ℚ) ≤ a.val * b.val + 1 / 2) := by
  have hxval : a.val * b.val = ((a.m * b.m : ℕ) : ℚ) * (2 : ℚ) ^ (a.e + b.e) :=
    val_mul a b
  have hxnn : 0 ≤ a.val * b.val := mul_nonneg (val_nonneg a) (val_nonneg b)
  by_cases hsmall : a.m * b.m < 2 ^ 53
  · have hexact : (fpMul a b).val = a.val * b.val := by
      rw [fpMul_val, roundSig_small hsmall, hxval]
      norm_num
    have hfl : (pyTrunc (fpMul a b) : ℤ) = ⌊a.val * b.val⌋ := by
      rw [pyTrunc_eq_floor, hexact]
    constructor
    · rw [hfl]
    · have h1 : ((⌊a.val * b.val⌋ : ℤ) : ℚ) ≤ a.val * b.val := Int.floor_le _
      have h2 : ((pyTrunc (fpMul a b) : ℕ) : ℚ) = ((⌊a.val * b.val⌋ : ℤ) : ℚ) := by
        exact_mod_cast hfl
      rw [h2]; linarith
  · have hp53 : 2 ^ 53 ≤ a.m * b.m := Nat.le_of_not_lt hsmall
    obtain ⟨h53, hscale⟩ := log2_scale hp53
    obtain ⟨s, hsdef⟩ : ∃ s, (a.m * b.m).log2 - 52 = s := ⟨_, rfl⟩
    obtain ⟨q, hqdef⟩ : ∃ q, rnd (a.m * b.m) s = q := ⟨_, rfl⟩
    obtain ⟨p, hpdef⟩ : ∃ p, a.m * b.m = p := ⟨_, rfl⟩
    obtain ⟨E, hEdef⟩ : ∃ E, a.e + b.e = E := ⟨_, rfl⟩
    have hs1 : 1 ≤ s := by omega
    have hround : roundSig (a.m * b.m) = (q, s) := by
      rw [roundSig_big hp53, hsdef, hqdef]
    have hF : (fpMul a b).val = (q : ℚ) * (2 : ℚ) ^ ((s : ℤ) + E) := by
      rw [fpMul_val, hround, hEdef]
    have hxvalE : a.val * b.val = (p : ℚ) * (2 : ℚ) ^ E := by
      rw [val_mul, hpdef, hEdef]
    have hscale' : 2 ^ (s + 52) ≤ p := by rw [← hsdef, ← hpdef]; exact hscale
    obtain ⟨hb1, hb2⟩ : ((q * 2 ^ s : ℕ) : ℤ) - p ≤ 2 ^ (s - 1) ∧
        (p : ℤ) - (q * 2 ^ s : ℕ) ≤ 2 ^ (s - 1) := by
      rw [← hqdef, ← hpdef]; exact rnd_bound hs1
    have h2Epos : (0 : ℚ) < (2 : ℚ) ^ E := zpow_pos (by norm_num) E
    -- the grid is at least as fine as the integers: (s : ℤ) + E ≤ 0
    have hsE : (s : ℤ) + E ≤ 0 := by
      by_contra hcon
      push_neg at hcon
      have hple : ((2 ^ (s + 52) : ℕ) : ℚ) ≤ (p : ℚ) := by exact_mod_cast hscale'
      have hpc : ((2 ^ (s + 52) : ℕ) : ℚ) = (2 : ℚ) ^ (s + 52 : ℕ) := by push_cast; ring
      have h1 : ((2 : ℚ) ^ (s + 52 : ℕ)) * (2 : ℚ) ^ E ≤ a.val * b.val := by
        rw [hxvalE, ← hpc]
        exact mul_le_mul_of_nonneg_right hple (le_of_lt h2Epos)
      have h2 : (2 : ℚ) ^ (((s + 52 : ℕ) : ℤ) + E) =
          ((2 : ℚ) ^ (s + 52 : ℕ)) * (2 : ℚ) ^ E := by
        rw [zpow_add₀ (two_ne_zero : (2 : ℚ) ≠ 0) ((s + 52 : ℕ) : ℤ) E,
          zpow_natCast (2 : ℚ) (s + 52)]
      have h3 : (2 : ℚ) ^ (((s + 52 : ℕ) : ℤ) + E) ≤ (2 : ℚ) ^ (52 : ℤ) := by
        rw [h2]
        calc ((2 : ℚ) ^ (s + 52 : ℕ)) * (2 : ℚ) ^ E ≤ a.val * b.val := h1
          _ ≤ 2 ^ 52 := hx
          _ = (2 : ℚ) ^ (52 : ℤ) := by norm_num
      have h4 : ((s + 52 : ℕ) : ℤ) + E ≤ 52 :=
        (zpow_le_zpow_iff_right₀ (by norm_num : (1 : ℚ) < 2)).1 h3
      push_cast at h4
      omega
    obtain ⟨t, htE⟩ : ∃ t : ℕ, (s : ℤ) + E = -(t : ℤ) :=
      ⟨(-(E + (s : ℤ))).toNat, by omega⟩
    have h2t : (0 : ℚ) < ((2 ^ t : ℕ) : ℚ) := by positivity
    have hg : (2 : ℚ) ^ ((s : ℤ) + E) = ((2 ^ t : ℕ) : ℚ)⁻¹ := by
      rw [htE, zpow_neg (2 : ℚ) (t : ℤ), zpow_natCast (2 : ℚ) t,
        Nat.cast_pow, Nat.cast_ofNat]
    have hgpos : (0 : ℚ) < (2 : ℚ) ^ ((s : ℤ) + E) := zpow_pos (by norm_num) _
    have hgle1 : (2 : ℚ) ^ ((s : ℤ) + E) ≤ 1 := by
      rw [show (1 : ℚ) = (2 : ℚ) ^ (0 : ℤ) from (zpow_zero 2).symm]
      exact (zpow_le_zpow_iff_right₀ (by norm_num : (1 : ℚ) < 2)).2 hsE
    have hsplit : (2 : ℚ) ^ ((s : ℤ) + E) = (2 : ℚ) ^ (s : ℕ) * (2 : ℚ) ^ E := by
      rw [zpow_add₀ (two_ne_zero : (2 : ℚ) ≠ 0) (s : ℤ) E, zpow_natCast (2 : ℚ) s]
    have hhalf : ((2 : ℚ) ^ (s - 1 : ℕ)) * (2 : ℚ) ^ E =
        (2 : ℚ) ^ ((s : ℤ) + E) / 2 := by
      have c1 : (2 : ℚ) ^ (s - 1 : ℕ) = (2 : ℚ) ^ ((s : ℤ) - 1) := by
        rw [← zpow_natCast (2 : ℚ) (s - 1)]
        congr 1
        omega
      have c2 : (2 : ℚ) ^ ((s : ℤ) - 1) = (2 : ℚ) ^ ((s : ℤ)) / 2 := by
        rw [zpow_sub₀ (two_ne_zero : (2 : ℚ) ≠ 0), zpow_one]
      have c3 : (2 : ℚ) ^ ((s : ℤ)) = (2 : ℚ) ^ (s : ℕ) := zpow_natCast 2 s
      rw [c1, c2, c3, hsplit, ← c3, c3]
      ring
    have hb1Q : (q : ℚ) * (2 : ℚ) ^ (s : ℕ) - (p : ℚ) ≤ (2 : ℚ) ^ (s - 1 : ℕ) := by
      have hc : ((q * 2 ^ s : ℕ) : ℚ) - (p : ℚ) ≤ ((2 ^ (s - 1) : ℕ) : ℚ) := by
        exact_mod_cast hb1
      push_cast at hc
      linarith
    have hb2Q : (p : ℚ) - (q : ℚ) * (2 : ℚ) ^ (s : ℕ) ≤ (2 : ℚ) ^ (s - 1 : ℕ) := by
      have hc : (p : ℚ) - ((q * 2 ^ s : ℕ) : ℚ) ≤ ((2 ^ (s - 1) : ℕ) : ℚ) := by
        exact_mod_cast hb2
      push_cast at hc
      linarith
    have herr_hi : (fpMul a b).val ≤ a.val * b.val + (2 : ℚ) ^ ((s : ℤ) + E) / 2 := by
      rw [hF, hxvalE]
      calc (q : ℚ) * (2 : ℚ) ^ ((s : ℤ) + E)
          = ((q : ℚ) * (2 : ℚ) ^ (s : ℕ)) * (2 : ℚ) ^ E := by rw [hsplit]; ring
        _ ≤ ((p : ℚ) + (2 : ℚ) ^ (s - 1 : ℕ)) * (2 : ℚ) ^ E := by
            apply mul_le_mul_of_nonneg_right _ (le_of_lt h2Epos)
            linarith
        _ = (p : ℚ) * (2 : ℚ) ^ E + ((2 : ℚ) ^ (s - 1 : ℕ)) * (2 : ℚ) ^ E := by ring
        _ = (p : ℚ) * (2 : ℚ) ^ E + (2 : ℚ) ^ ((s : ℤ) + E) / 2 := by rw [hhalf]
    have herr_lo : a.val * b.val - (2 : ℚ) ^ ((s : ℤ) + E) / 2 ≤ (fpMul a b).val := by
      rw [hF, hxvalE]
      calc (p : ℚ) * (2 : ℚ) ^ E - (2 : ℚ) ^ ((s : ℤ) + E) / 2
          = (p : ℚ) * (2 : ℚ) ^ E - ((2 : ℚ) ^ (s - 1 : ℕ)) * (2 : ℚ) ^ E := by rw [hhalf]
        _ = ((p : ℚ) - (2 : ℚ) ^ (s - 1 : ℕ)) * (2 : ℚ) ^ E := by ring
        _ ≤ ((q : ℚ) * (2 : ℚ) ^ (s : ℕ)) * (2 : ℚ) ^ E := by
            apply mul_le_mul_of_nonneg_right _ (le_of_lt h2Epos)
            linarith
        _ = (q : ℚ) * (2 : ℚ) ^ ((s : ℤ) + E) := by rw [hsplit]; ring
    constructor
    · -- lower bound: ⌊x⌋ ≤ trunc
      have hxgefloor : ((⌊a.val * b.val⌋ : ℤ) : ℚ) ≤ a.val * b.val := Int.floor_le _
      have hFgt : ((⌊a.val * b.val⌋ : ℤ) : ℚ) - (2 : ℚ) ^ ((s : ℤ) + E) <
          (fpMul a b).val := by
        linarith
      have hq_gt : (⌊a.val * b.val⌋ * (2 ^ t : ℕ) : ℤ) - 1 < (q : ℤ) := by
        rw [hF, hg] at hFgt
        have hmul := mul_lt_mul_of_pos_right hFgt h2t
        have hne : ((2 ^ t : ℕ) : ℚ) ≠ 0 := ne_of_gt h2t
        rw [sub_mul, inv_mul_cancel₀ hne, mul_assoc, inv_mul_cancel₀ hne, mul_one] at hmul
        exact_mod_cast hmul
      have hql : (⌊a.val * b.val⌋ * (2 ^ t : ℕ) : ℤ) ≤ (q : ℤ) := by omega
      have hFge : ((⌊a.val * b.val⌋ : ℤ) : ℚ) ≤ (fpMul a b).val := by
        rw [hF, hg]
        have hqlQ : ((⌊a.val * b.val⌋ : ℤ) : ℚ) * ((2 ^ t : ℕ) : ℚ) ≤ (q : ℚ) := by
          exact_mod_cast hql
        have hne : ((2 ^ t : ℕ) : ℚ) ≠ 0 := ne_of_gt h2t
        calc ((⌊a.val * b.val⌋ : ℤ) : ℚ)
            = (((⌊a.val * b.val⌋ : ℤ) : ℚ) * ((2 ^ t : ℕ) : ℚ)) * ((2 ^ t : ℕ) : ℚ)⁻¹ := by
              field_simp
          _ ≤ (q : ℚ) * ((2 ^ t : ℕ) : ℚ)⁻¹ := by
              apply mul_le_mul_of_nonneg_right hqlQ
              positivity
      rw [pyTrunc_eq_floor]
      exact Int.le_floor.2 hFge
    · -- upper bound: trunc ≤ x + 1/2
      have h1 : ((⌊(fpMul a b).val⌋ : ℤ) : ℚ) ≤ (fpMul a b).val := Int.floor_le _
      have hcast : ((pyTrunc (fpMul a b) : ℕ) : ℚ) = ((⌊(fpMul a b).val⌋ : ℤ) : ℚ) := by
        exact_mod_cast pyTrunc_eq_floor (fpMul a b)
      rw [hcast]
      linarith

end PyFloat

/-- `10 ^ 9` converts to a double exactly (it is below `2 ^ 53`). -/
theorem ofNat_pow9 : PyFloat.ofNat (10 ^ 9) = ⟨10 ^ 9, 0⟩ := by
  rw [PyFloat.ofNat, PyFloat.roundSig_small (by norm_num)]
  rfl

theorem ofNat_pow9_val : (PyFloat.ofNat (10 ^ 9)).val = (10 : ℚ) ^ 9 := by
  rw [ofNat_pow9, PyFloat.val]
  norm_num

/-- The full significand product appearing in `int(8.2 * 10**9)`. -/
theorem roundSig_py82 :
    PyFloat.roundSig (4616189618054758 * 10 ^ 9) = (8598323199999999, 29) := by
  rw [PyFloat.roundSig_big (by norm_num),
    show (4616189618054758 * 10 ^ 9 : ℕ).log2 = 81 from
      PyFloat.log2_eq_of (by norm_num) (by norm_num)]
  decide

/-- Python computes `int(8.2 * 10**9) = 8199999999` … -/
theorem amountRaw_py82 : amountRaw py82 9 = 8199999999 := by
  rw [amountRaw, ofNat_pow9]
  rw [show PyFloat.fpMul py82 ⟨10 ^ 9, 0⟩ = ⟨8598323199999999, -20⟩ from by
    rw [PyFloat.fpMul]
    rw [show py82.m * (⟨10 ^ 9, 0⟩ : PyFloat).m = 4616189618054758 * 10 ^ 9 from rfl]
    rw [roundSig_py82]
    rfl]
  rw [PyFloat.pyTrunc]
  decide

/-- … while exact scaling of the double 8.2 by `10 ^ 9`, rounded, gives
`8200000000`. -/
theorem specScaled_py82 : specScaled py82 9 = 8200000000 := by
  rw [specScaled]
  have hval : py82.val = (4616189618054758 : ℚ) / 2 ^ 49 := by
    rw [py82, PyFloat.val]
    rw [show ((-49 : ℤ)) = -((49 : ℕ) : ℤ) from by norm_num, zpow_neg, zpow_natCast]
    norm_num
  rw [hval]
  rw [show (4616189618054758 : ℚ) / 2 ^ 49 * (10 : ℚ) ^ 9 + 1 / 2 =
      ((9232379236672465953421312 : ℤ) : ℚ) / ((1125899906842624 : ℕ) : ℚ) from by
    norm_num]
  rw [Rat.floor_intCast_div_natCast]
  decide

/-- The exact rational value of the double 8.2. -/
theorem py82_val : py82.val = (4616189618054758 : ℚ) / 2 ^ 49 := by
  rw [py82, PyFloat.val]
  rw [show ((-49 : ℤ)) = -((49 : ℕ) : ℤ) from by norm_num, zpow_neg, zpow_natCast]
  norm_num

/-- Scaling 8.2 by `10 ^ 9` stays far below `2 ^ 52`. -/
theorem py82_size : py82.val * (10 : ℚ) ^ 9 ≤ 2 ^ 52 := by
  rw [py82_val]
  norm_num

/-! ## Claim C1 -/

/-- C1 (amended): in `send_sol` and `send_token` the caller's decimal
amount is converted by truncating the floating-point product
`amount * 10 ** d` toward zero — not by exact scaling with rounding (see
the counterexample) — `send_sol` being the `d = 9` instance of the same
conversion; still, whenever `10 ^ d` is exactly representable as a double
and the exactly scaled amount is at most `2 ^ 52`, the produced integer
differs from the exactly-scaled-and-rounded value by at most one smallest
unit, and converting it back with the same decimal count reproduces the
original amount to within one smallest unit. -/
theorem C1_amount_scaling (amount : PyFloat) (d : ℕ)
    (hrep : (PyFloat.ofNat (10 ^ d)).val = (10 : ℚ) ^ d)
    (hsize : amount.val * (10 : ℚ) ^ d ≤ 2 ^ 52) :
    amountLamports amount = amountRaw amount 9 ∧
    |(amountRaw amount d : ℚ) - amount.val * (10 : ℚ) ^ d| < 1 ∧
    |(amountRaw amount d : ℤ) - specScaled amount d| ≤ 1 := by
  have hx : amount.val * (PyFloat.ofNat (10 ^ d)).val ≤ 2 ^ 52 := by
    rw [hrep]; exact hsize
  obtain ⟨hlo, hhi⟩ := PyFloat.trunc_fpMul_bounds amount (PyFloat.ofNat (10 ^ d)) hx
  rw [hrep] at hlo hhi
  rw [show amountRaw amount d =
    PyFloat.pyTrunc (PyFloat.fpMul amount (PyFloat.ofNat (10 ^ d))) from rfl]
  refine ⟨rfl, ?_, ?_⟩
  · rw [abs_lt]
    constructor
    · have h1 : amount.val * (10 : ℚ) ^ d <
          ((⌊amount.val * (10 : ℚ) ^ d⌋ : ℤ) : ℚ) + 1 := Int.lt_floor_add_one _
      have h2 : ((⌊amount.val * (10 : ℚ) ^ d⌋ : ℤ) : ℚ) ≤
          ((PyFloat.pyTrunc (PyFloat.fpMul amount (PyFloat.ofNat (10 ^ d))) : ℕ) : ℚ) := by
        exact_mod_cast hlo
      linarith
    · linarith
  · have hcle : (PyFloat.pyTrunc (PyFloat.fpMul amount (PyFloat.ofNat (10 ^ d))) : ℤ) ≤
        specScaled amount d := by
      rw [specScaled]
      apply Int.le_floor.2
      push_cast
      linarith
    have hnle : specScaled amount d ≤
        (PyFloat.pyTrunc (PyFloat.fpMul amount (PyFloat.ofNat (10 ^ d))) : ℤ) + 1 := by
      rw [specScaled]
      have hmono : amount.val * (10 : ℚ) ^ d + 1 / 2 ≤
          amount.val * (10 : ℚ) ^ d + 1 := by linarith
      calc ⌊amount.val * (10 : ℚ) ^ d + 1 / 2⌋
          ≤ ⌊amount.val * (10 : ℚ) ^ d + 1⌋ := Int.floor_le_floor hmono
        _ = ⌊amount.val * (10 : ℚ) ^ d⌋ + 1 := by
            exact_mod_cast Int.floor_add_int (amount.val * (10 : ℚ) ^ d) 1
        _ ≤ _ + 1 := by omega
    rw [abs_le]
    omega

/-- C1 witness: the amended statement applied to the double 8.2 with
`d = 9`. -/
theorem C1_amount_scaling_witness :
    (PyFloat.ofNat (10 ^ 9)).val = (10 : ℚ) ^ 9 ∧
    py82.val * (10 : ℚ) ^ 9 ≤ 2 ^ 52 ∧
    (amountLamports py82 = amountRaw py82 9 ∧
     |(amountRaw py82 9 : ℚ) - py82.val * (10 : ℚ) ^ 9| < 1 ∧
     |(amountRaw py82 9 : ℤ) - specScaled py82 9| ≤ 1) :=
  ⟨ofNat_pow9_val, py82_size, C1_amount_scaling py82 9 ofNat_pow9_val py82_size⟩

/-- C1 counterexample: for the caller amount 8.2 (`d = 9`, the `send_sol`
conversion) the code produces 8199999999 lamports, while exact scaling by
`10 ^ 9` with rounding gives 8200000000 — the conversion is not
exact-scale-and-round. -/
theorem C1_counterexample :
    amountRaw py82 9 = 8199999999 ∧ specScaled py82 9 = 8200000000 ∧
    (amountRaw py82 9 : ℤ) ≠ specScaled py82 9 := by
  refine ⟨amountRaw_py82, specScaled_py82, ?_⟩
  rw [amountRaw_py82, specScaled_py82]
  decide

/-- A chain accepted by the `web3_connections` lookup is one of the four
configured EVM names. -/
theorem chainSupported_mem {chain : String} (h : chainSupported chain = true) :
    chain = "ethereum" ∨ chain = "base" ∨ chain = "bsc" ∨ chain = "polygon" := by
  rw [chainSupported, evmChains] at h
  simpa using h

/-- A chain accepted by the `web3_connections` lookup is not `"solana"`. -/
theorem supported_ne_solana {chain : String} (h : chainSupported chain = true) :
    chain ≠ "solana" := by
  rcases chainSupported_mem h with h1 | h1 | h1 | h1 <;> (subst h1; decide)

/-! ## Claim C2 -/

/-- C2: when the receipt (resp. the Solana transaction) is present,
`get_transaction_status` reports, on an EVM chain, `confirmations` equal
to the current head height minus the receipt's inclusion height and a
status taken from the receipt's flag; on `solana` it reports the fixed
sentinel `confirmations = 1` and status `confirmed` exactly when no
on-chain execution error (`meta.err`) is present. -/
theorem C2_status_fields (env : TxEnv) (txHash : String) :
    (∀ chain, chainSupported chain = true →
      ∀ r, env.getReceipt chain txHash = some r →
        get_transaction_status env txHash chain = .okay {
          txHash := txHash
          status := if r.status = 1 then "confirmed" else "failed"
          blockNumber := r.blockNumber
          confirmations := (env.blockNumber chain : ℤ) - (r.blockNumber : ℤ)
          gasUsed := some r.gasUsed
          effectiveGasPrice := some r.effectiveGasPrice
          fee := none }) ∧
    (∀ tx, env.solanaGetTx txHash = some tx →
      get_transaction_status env txHash "solana" = .okay {
        txHash := txHash
        status := if metaErr tx = none then "confirmed" else "failed"
        blockNumber := tx.slot
        confirmations := 1
        gasUsed := none
        effectiveGasPrice := none
        fee := some (metaFee tx) }) := by
  constructor
  · intro chain hs r hr
    rw [get_transaction_status, if_neg (supported_ne_solana hs), if_pos hs, hr]
  · intro tx htx
    rw [get_transaction_status, if_pos rfl, htx]

/-- C2 witness: in the concrete world `env0` (head 130, receipt included
at 100 with status flag 1; Solana transaction in slot 42 with no error)
both conjuncts applied give the expected results. -/
theorem C2_status_fields_witness :
    get_transaction_status env0 "h" "ethereum" =
      .okay ⟨"h", "confirmed", 100, 30, some 21000, some 7, none⟩ ∧
    get_transaction_status env0 "h" "solana" =
      .okay ⟨"h", "confirmed", 42, 1, none, none, some 5000⟩ := by
  constructor
  · rw [(C2_status_fields env0 "h").1 "ethereum" (by decide) ⟨1, 100, 21000, 7⟩ rfl]
    decide
  · rw [(C2_status_fields env0 "h").2 ⟨42, some ⟨none, 5000⟩⟩ rfl]
    decide

/-! ## Claim C5 -/

/-- C5: on every configured chain (`solana` or an EVM chain), when the
lookup finds no receipt `get_transaction_status` returns the
`Transaction not found` failure, and no result of the operation ever
carries the status `pending`. -/
theorem C5_unknown_tx (env : TxEnv) (txHash chain : String) :
    ((chain = "solana" → env.solanaGetTx txHash = none →
        get_transaction_status env txHash chain = .fail "Transaction not found") ∧
     (chainSupported chain = true → env.getReceipt chain txHash = none →
        get_transaction_status env txHash chain = .fail "Transaction not found")) ∧
    (∀ st, (get_transaction_status env txHash chain).payload = some st →
      st.status ≠ "pending") := by
  refine ⟨⟨?_, ?_⟩, ?_⟩
  · intro h hnone
    subst h
    rw [get_transaction_status, if_pos rfl, hnone]
  · intro hs hnone
    rw [get_transaction_status, if_neg (supported_ne_solana hs), if_pos hs, hnone]
  · intro st hst
    rw [get_transaction_status] at hst
    by_cases h : chain = "solana"
    · rw [if_pos h] at hst
      cases henv : env.solanaGetTx txHash with
      | none => rw [henv] at hst; simp [PyResult.fail] at hst
      | some tx =>
        rw [henv] at hst
        simp only [PyResult.okay, Option.some.injEq] at hst
        rw [← hst]
        by_cases herr : metaErr tx = none <;> simp [herr]
    · rw [if_neg h] at hst
      by_cases hs : chainSupported chain
      · rw [if_pos hs] at hst
        cases henv : env.getReceipt chain txHash with
        | none => rw [henv] at hst; simp [PyResult.fail] at hst
        | some r =>
          rw [henv] at hst
          simp only [PyResult.okay, Option.some.injEq] at hst
          rw [← hst]
          by_cases hflag : r.status = 1 <;> simp [hflag]
      · rw [if_neg hs] at hst
        simp [PyResult.fail] at hst

/-- C5 witness: with empty receipt worlds both configured-chain lookups
return the not-found failure, and a concrete found status is not
`pending`. -/
theorem C5_unknown_tx_witness :
    get_transaction_status envEmpty "h" "solana" = .fail "Transaction not found" ∧
    get_transaction_status envEmpty "h" "ethereum" = .fail "Transaction not found" ∧
    (⟨"h", "confirmed", 100, 30, some 21000, some 7, none⟩ : StatusPayload).status ≠
      "pending" :=
  ⟨(C5_unknown_tx envEmpty "h" "solana").1.1 rfl rfl,
   (C5_unknown_tx envEmpty "h" "ethereum").1.2 (by decide) rfl,
   (C5_unknown_tx env0 "h" "ethereum").2 _ (by decide)⟩

/-! ## Claim C3 -/

/-- C3 (amended): chain resolution is a case-sensitive exact lookup over
the four lowercase EVM identifiers.  Each configured name resolves — and,
given the per-operation preconditions, the operation proceeds to a
success envelope — while every other string, including other casings of
configured names, yields the `Unsupported chain` failure, uniformly
across the balance, send and fee-estimate operations. -/
theorem C3_chain_resolution (chain : String) (env : TxEnv) (benv : BalEnv)
    (key dst addr : String) (amt : ℚ) (amtF : PyFloat) (tok : Option String) :
    (chainSupported chain = true ↔
      chain ∈ (["ethereum", "base", "bsc", "polygon"] : List String)) ∧
    (chainSupported chain = false →
      get_eth_balance benv addr chain = .fail (unsupportedChainMsg chain) ∧
      send_native_token env key dst amt chain = .fail (unsupportedChainMsg chain) ∧
      estimate_gas env addr dst amtF chain tok = .fail (unsupportedChainMsg chain)) ∧
    (chainSupported chain = true →
      (benv.isAddress addr = true →
        (get_eth_balance benv addr chain).success = true) ∧
      (∀ g, env.estimateGas = Except.ok g →
        (estimate_gas env addr dst amtF chain none).success = true) ∧
      (∀ fa g h r, env.fromKey key = Except.ok fa → env.isAddress dst = true →
        env.estimateGas = Except.ok g → env.sendRaw = Except.ok h →
        env.waitReceipt = Except.ok r →
        (send_native_token env key dst amt chain).success = true)) := by
  refine ⟨?_, ?_, ?_⟩
  · rw [chainSupported, evmChains]
    simp
  · intro hf
    refine ⟨?_, ?_, ?_⟩
    · rw [get_eth_balance, if_pos (by simp [hf])]
    · rw [send_native_token, if_pos (by simp [hf])]
    · rw [estimate_gas, if_pos (by simp [hf])]
  · intro ht
    refine ⟨?_, ?_, ?_⟩
    · intro haddr
      rw [get_eth_balance, if_neg (by simp [ht]), if_neg (by simp [haddr])]
      rfl
    · intro g hg
      rw [estimate_gas, if_neg (by simp [ht])]
      simp only [hg]
      rfl
    · intro fa g h r hk ha hg hs hw
      simp [send_native_token, ht, hk, ha, hg, hs, hw, PyResult.okay]

/-- C3 witness: the amended statement applied at the configured name
`"bsc"` (resolution and balance success) and at the differently-cased
`"Base"` (unsupported failure). -/
theorem C3_chain_resolution_witness :
    ("bsc" ∈ (["ethereum", "base", "bsc", "polygon"] : List String)) ∧
    (get_eth_balance balEnv0 "0xabc" "bsc").success = true ∧
    get_eth_balance balEnv0 "0xabc" "Base" = .fail (unsupportedChainMsg "Base") :=
  ⟨(C3_chain_resolution "bsc" env0 balEnv0 "k" "t" "0xabc" 1 py82 none).1.1
      (by decide),
   ((C3_chain_resolution "bsc" env0 balEnv0 "k" "t" "0xabc" 1 py82 none).2.2
      (by decide)).1 (by decide),
   ((C3_chain_resolution "Base" env0 balEnv0 "k" "t" "0xabc" 1 py82 none).2.1
      (by decide)).1⟩

/-- C3 counterexample: resolution is not case-insensitive — the
differently-cased configured identifier `"Ethereum"` is rejected with the
unsupported-chain failure by the very operations the claim covers, while
lowercase `"ethereum"` succeeds. -/
theorem C3_counterexample :
    get_eth_balance balEnv0 "0xabc" "Ethereum" =
      .fail "Unsupported chain: Ethereum" ∧
    (get_eth_balance balEnv0 "0xabc" "ethereum").success = true ∧
    send_native_token env0 "k" "t" 1 "ETHEREUM" =
      .fail "Unsupported chain: ETHEREUM" := by
  refine ⟨?_, ?_, ?_⟩ <;> decide

/-! ## Claim C4 -/

/-- C4 (amended): for `solana`, the token-transfer and fee-estimation
operations fail fast with the generic unsupported-chain envelope
(`"Unsupported chain: solana"`) — the same response an unconfigured chain
receives, not a distinct unsupported-operation kind — and the result is
the same for every environment, so no network interaction is attempted. -/
theorem C4_solana_fails_fast (env : TxEnv) (key dst tok fromA toA : String)
    (amount amtF : PyFloat) (tokOpt : Option String) :
    send_token env key dst tok amount "solana" =
      .fail (unsupportedChainMsg "solana") ∧
    estimate_gas env fromA toA amtF "solana" tokOpt =
      .fail (unsupportedChainMsg "solana") := by
  have hsol : chainSupported "solana" = false := by decide
  constructor
  · rw [send_token, hsol]
    simp
  · rw [estimate_gas, hsol]
    simp

/-- C4 counterexample: the `solana` failure of `send_token` is exactly
the unsupported-chain envelope, identical in shape to the one an
unconfigured chain name receives — not a distinct unsupported-operation
error. -/
theorem C4_counterexample :
    (send_token env0 "k" "t" "tok" py82 "solana").error =
      some (unsupportedChainMsg "solana") ∧
    (send_token env0 "k" "t" "tok" py82 "dogecoin").error =
      some (unsupportedChainMsg "dogecoin") ∧
    (send_token env0 "k" "t" "tok" py82 "solana").success = false := by
  refine ⟨?_, ?_, ?_⟩ <;> decide

/-! ## Claim C6 -/

/-- C6: decrypting with the same process-wide key returns exactly the
encrypted private-key string, while decrypting a ciphertext produced
under a different key fails with the decryption error (`InvalidToken`)
instead of returning a value. -/
theorem C6_encrypt_decrypt (wmKey dbKey : ℕ) (pk : String) :
    (wmKey = dbKey →
      decrypt_private_key dbKey (encrypt_private_key wmKey pk) = .ok pk) ∧
    (wmKey ≠ dbKey →
      decrypt_private_key dbKey (encrypt_private_key wmKey pk) =
        .error "InvalidToken") := by
  constructor
  · intro h
    subst h
    simp [decrypt_private_key, encrypt_private_key, fernetDecrypt, fernetEncrypt]
  · intro h
    simp [decrypt_private_key, encrypt_private_key, fernetDecrypt, fernetEncrypt, h]

/-- C6 witness: round trip under key 0, failure decrypting under key 1. -/
theorem C6_encrypt_decrypt_witness :
    decrypt_private_key 0 (encrypt_private_key 0 "secret") = .ok "secret" ∧
    decrypt_private_key 1 (encrypt_private_key 0 "secret") = .error "InvalidToken" :=
  ⟨(C6_encrypt_decrypt 0 0 "secret").1 rfl,
   (C6_encrypt_decrypt 0 1 "secret").2 (by decide)⟩

/-! ## Claim C8 -/

/-- C8: on an EVM chain, a native-transfer fee estimate — with the node
reporting the standard 21000-unit intrinsic cost for a plain transfer —
returns total cost exactly `21000 * P` in wei for current unit price `P`,
with the decimal form equal to that value divided by `10 ^ 18`. -/
theorem C8_native_fee (env : TxEnv) (fromA dst : String) (amtF : PyFloat)
    (chain : String) (hchain : chainSupported chain = true)
    (hest : env.estimateGas = Except.ok 21000) :
    estimate_gas env fromA dst amtF chain none = .okay {
      estimatedGas := 21000
      gasPrice := env.gasPrice
      totalCostWei := 21000 * env.gasPrice
      totalCostEth := ((21000 * env.gasPrice : ℕ) : ℚ) / 10 ^ 18
      transactionType := "native" } := by
  simp [estimate_gas, hchain, hest, PyResult.okay]

/-- C8 witness: with unit price 7 the estimate on `ethereum` is exactly
`21000 × 7 = 147000` wei, decimal form `147000 / 10 ^ 18`. -/
theorem C8_native_fee_witness :
    chainSupported "ethereum" = true ∧
    env0.estimateGas = Except.ok 21000 ∧
    estimate_gas env0 "a" "b" py82 "ethereum" none =
      .okay ⟨21000, 7, 147000, (147000 : ℚ) / 10 ^ 18, "native"⟩ := by
  refine ⟨by decide, rfl, ?_⟩
  rw [C8_native_fee env0 "a" "b" py82 "ethereum" (by decide) rfl]
  simp only [env0]
  norm_num

/-! ## Claim C9 -/

/-- C9 (amended): `send_native_token` and `get_wallet_balance` always
return a result envelope rather than raising past their boundary, and
every envelope is exactly one of a success with populated payload and no
error, or a failure with a message and no payload — never both, never
neither — over every environment, store and argument list: every raising
remote call is caught and re-wrapped.  The failure envelope, however,
carries only the human-readable message string, not the distinct
machine-checkable error kind the spec demands (see the counterexample). -/
theorem C9_envelopes (env : TxEnv) (wenv : WmBalEnv) (db : List WalletRow)
    (key dst uid wname chain : String) (amt : ℚ) :
    envelopeOk (send_native_token env key dst amt chain) ∧
    envelopeOk (get_wallet_balance db wenv uid wname chain) := by
  constructor
  · unfold send_native_token
    by_cases h1 : chainSupported chain
    · cases hk : env.fromKey key with
      | error e => simp [h1, hk, envelopeOk, PyResult.fail]
      | ok fa =>
        by_cases h2 : env.isAddress dst
        · cases hg : env.estimateGas with
          | error e => simp [h1, hk, h2, hg, envelopeOk, PyResult.fail]
          | ok g =>
            cases hs : env.sendRaw with
            | error e => simp [h1, hk, h2, hg, hs, envelopeOk, PyResult.fail]
            | ok hsh =>
              cases hw : env.waitReceipt with
              | error e => simp [h1, hk, h2, hg, hs, hw, envelopeOk, PyResult.fail]
              | ok r => simp [h1, hk, h2, hg, hs, hw, envelopeOk, PyResult.okay]
        · simp [h1, hk, h2, envelopeOk, PyResult.fail]
    · simp [h1, envelopeOk, PyResult.fail]
  · unfold get_wallet_balance
    cases hl : lookupWallet db uid wname chain with
    | none => simp [hl, envelopeOk, PyResult.fail]
    | some row =>
      by_cases h1 : chainSupported chain
      · cases hb : wenv.getBalance chain row.walletAddress with
        | error e => simp [hl, h1, hb, envelopeOk, PyResult.fail]
        | ok wei => simp [hl, h1, hb, envelopeOk, PyResult.okay]
      · simp [hl, h1, envelopeOk, PyResult.fail]

/-- C9 counterexample: failure envelopes carry no machine-checkable
error kind — the entire failure is the message string.  Two different
failure causes (an exception raised while deriving the sender key versus
the recipient-address validation failure) produce byte-identical
envelopes once their message texts coincide, so no function of the
returned envelope can recover which kind of error occurred. -/
theorem C9_counterexample :
    send_native_token envKeyErr "k" "t" 1 "ethereum" =
      PyResult.fail "Invalid recipient address" ∧
    send_native_token envBadAddr "k" "t" 1 "ethereum" =
      PyResult.fail "Invalid recipient address" ∧
    send_native_token envKeyErr "k" "t" 1 "ethereum" =
      send_native_token envBadAddr "k" "t" 1 "ethereum" := by
  refine ⟨?_, ?_, ?_⟩ <;> decide

/-! ## Claim C10 -/

/-- C10: when both `default_chain` and `max_slippage` are falsy (absent,
empty string, or `0.0`) no `user_settings` row is inserted, replaced or
modified — the store is returned unchanged — yet the operation still
returns the success envelope `"Settings updated successfully"`. -/
theorem C10_noop_settings_update (db : List SettingsRow) (u : String)
    (dc : Option String) (ms : Option ℚ)
    (hdc : truthyStr dc = false) (hms : truthyNum ms = false) :
    update_user_settings db u dc ms =
      (.okay "Settings updated successfully", db) := by
  simp [update_user_settings, hdc, hms]

/-- C10 witness: `default_chain = None`, `max_slippage = 0.0` leave the
one-row store untouched while reporting success. -/
theorem C10_noop_settings_update_witness :
    truthyStr none = false ∧ truthyNum (some 0) = false ∧
    update_user_settings [⟨"u", "base", 3⟩] "u" none (some 0) =
      (.okay "Settings updated successfully", [⟨"u", "base", 3⟩]) :=
  ⟨rfl, by decide,
   C10_noop_settings_update [⟨"u", "base", 3⟩] "u" none (some 0) rfl (by decide)⟩

/-! ## Claim C7 -/

/-- `hexRender` always emits exactly the requested width. -/
theorem hexRender_length (w v : ℕ) : (hexRender w v).length = w := by
  induction w generalizing v with
  | zero => rfl
  | succ n ih => simp [hexRender, ih]

/-- Every character `hexRender` emits is a hex digit. -/
theorem hexDigitChar_hex (n : ℕ) : isHexDigitCh (hexDigitChar n) = true := by
  have h : n % 16 < 16 := Nat.mod_lt _ (by norm_num)
  have hall : ∀ k, k < 16 → isHexDigitCh (hexDigitChar k) = true := by decide
  have hmod : hexDigitChar n = hexDigitChar (n % 16) := by
    unfold hexDigitChar
    rw [show n % 16 % 16 = n % 16 from by omega]
  rw [hmod]
  exact hall _ h

theorem hexRender_all_hex (w v : ℕ) :
    (hexRender w v).all isHexDigitCh = true := by
  induction w generalizing v with
  | zero => rfl
  | succ n ih => simp [hexRender, List.all_append, ih, hexDigitChar_hex]

/-- C7 (amended): address derivation depends only on the key and chain —
the returned address is the same whatever the store, owner, wallet name
or vault key — and yields a `0x` + 40-hex-digit address for every strict
64-hex-digit key on a configured chain.  A key failing the format check
is rejected with the invalid-key failure and no wallet row is stored; a
key passing the check whose derivation nevertheless fails (the check
also accepts sign / underscore / base-marker / whitespace variants that
Python's `int(…, 16)` tolerates) receives the derivation failure, again
with no wallet row stored. -/
theorem C7_key_validation (db db2 : List WalletRow) (k k2 : ℕ)
    (u u2 n n2 pk chain : String) :
    ((add_wallet db k u n pk chain).1.payload.map
        AddWalletPayload.walletAddress =
      (add_wallet db2 k2 u2 n2 pk chain).1.payload.map
        AddWalletPayload.walletAddress) ∧
    (isStrict64Hex (strip0x pk) = true → chainSupported chain = true →
      ∃ ds : List Char,
        get_wallet_address pk chain = some ("0x" ++ String.mk ds) ∧
        ds.length = 40 ∧ ds.all isHexDigitCh = true) ∧
    (validate_private_key pk chain = false →
      add_wallet db k u n pk chain = (.fail "Invalid private key", db)) ∧
    (validate_private_key pk chain = true → get_wallet_address pk chain = none →
      add_wallet db k u n pk chain =
        (.fail "Could not derive wallet address", db)) := by
  refine ⟨?_, ?_, ?_, ?_⟩
  · rw [add_wallet, add_wallet]
    by_cases hv : validate_private_key pk chain
    · simp only [hv]
      cases ha : get_wallet_address pk chain <;>
        simp [ha, PyResult.fail, PyResult.okay]
    · simp [hv, PyResult.fail]
  · intro hs hc
    refine ⟨hexRender 40 (hexToNat (strip0x pk)), ?_, hexRender_length _ _,
      hexRender_all_hex _ _⟩
    rw [get_wallet_address, if_pos hc, from_key_address, if_pos hs]
  · intro hv
    rw [add_wallet, if_pos (by simp [hv])]
  · intro hv ha
    rw [add_wallet, if_neg (by simp [hv]), ha]

/-- C7 witness: the four conjuncts at concrete inputs — determinism of
the derived address across different stores and vault keys, a well-formed
address for a 64-hex key, rejection of a short key, and the
derivation-stage rejection of the sign-prefixed 64-character key — all
leaving the store unchanged. -/
theorem C7_key_validation_witness :
    ((add_wallet [] 0 "u" "w" goodKey64 "ethereum").1.payload.map
        AddWalletPayload.walletAddress =
      (add_wallet [⟨"x", "y", ⟨1, "z"⟩, "0xa", "bsc"⟩] 5 "v" "q" goodKey64
          "ethereum").1.payload.map AddWalletPayload.walletAddress) ∧
    (∃ ds : List Char,
        get_wallet_address goodKey64 "ethereum" = some ("0x" ++ String.mk ds) ∧
        ds.length = 40 ∧ ds.all isHexDigitCh = true) ∧
    add_wallet [] 0 "u" "w" "zz" "ethereum" = (.fail "Invalid private key", []) ∧
    add_wallet [] 0 "u" "w" badKey64 "ethereum" =
      (.fail "Could not derive wallet address", []) :=
  ⟨(C7_key_validation [] [⟨"x", "y", ⟨1, "z"⟩, "0xa", "bsc"⟩] 0 5 "u" "v" "w" "q"
      goodKey64 "ethereum").1,
   (C7_key_validation [] [] 0 0 "u" "u" "w" "w" goodKey64 "ethereum").2.1
      (by decide) (by decide),
   (C7_key_validation [] [] 0 0 "u" "u" "w" "w" "zz" "ethereum").2.2.1 (by decide),
   (C7_key_validation [] [] 0 0 "u" "u" "w" "w" badKey64 "ethereum").2.2.2
      (by decide) (by decide)⟩

/-- C7 counterexample: the 64-character key `"+fff…f"` contains a non-hex
character yet passes `_validate_private_key` (Python's `int(…, 16)`
accepts a sign), so the malformed key is not rejected by the
invalid-key-format gate — it only fails later, at address derivation. -/
theorem C7_counterexample :
    validate_private_key badKey64 "ethereum" = true ∧
    badKey64.toList.all isHexDigitCh = false ∧
    (add_wallet [] 0 "u" "w" badKey64 "ethereum").1 ≠
      .fail "Invalid private key" := by
  refine ⟨?_, ?_, ?_⟩ <;> decide
